import Mathlib

/-!
# Verification of the GNS group-moderation bot

A shallow embedding of the name-compliance state machine implemented in
`OneDrive/GNS_BOT/bot.py` (with constants from `config.py`), together with
theorems settling the specification's claims about it.

Modelling conventions:
* Timestamps (`datetime.datetime.now()` values) are natural numbers of seconds.
* The process-wide mutable dictionaries of `bot.py` (`pending_corrections`,
  `rejoin_attempts`, `approved_rejoins`, `member_name_tracker`,
  `active_invite_links`) are association lists bundled in `BotState`;
  Python dict assignment / `del` become `dinsert` / `derase`, which have the
  same lookup semantics (insertion *order* differs, which none of the
  modelled code observes except by key membership).
* The scheduler's one-shot removal jobs (`job_queue.run_once(...,
  name=f"removal_{user_id}")`) are modelled as the list `removal_jobs` of user
  ids; cancelling removes the id.
* Calls out to the chat platform (send/delete message, ban, create invite
  link, get_chat_member) are modelled as emitted `Effect`s; platform results
  that the control flow branches on (invite-link creation, member lookup)
  are passed in as explicit parameters.
* `is_lecturer_or_admin` is modelled as the environment predicate
  `Env.exempt`, the global `MODE` as `Env.mode`, `context.bot.id` as
  `Env.botId`.
-/

namespace GnsBot

abbrev UserId := Nat
abbrev Time := Nat
abbrev MsgId := Nat

/-- config.py: `REJOIN_ATTEMPTS_LIMIT = 3` -/
def REJOIN_ATTEMPTS_LIMIT : Nat := 3

/-- config.py: `REJOIN_COOLDOWN = 30 * 60` (seconds) -/
def REJOIN_COOLDOWN : Nat := 30 * 60

/-- config.py: `NAME_CORRECTION_TIME = 15 * 60` (seconds) -/
def NAME_CORRECTION_TIME : Nat := 15 * 60

/-- bot.py: `INVITE_LINK_DURATION = 2 * 60 * 60` (seconds) -/
def INVITE_LINK_DURATION : Nat := 2 * 60 * 60

/-- The two values of the process-wide `MODE` global (config.py
`COURSE_MODES`), switchable at runtime by `/switch_mode`. -/
inductive Mode where
  | pre_matric
  | post_matric
deriving DecidableEq, Repr

/-! ## Name validator (`validate_name`, bot.py lines 34-47)

The source matches the name against one of two anchored regular expressions:

* pre_matric : `^[A-Z][a-z]+(?:\s+[A-Z][a-z]+)*\s+[A-Z]+\s+\d{12}$`
* post_matric: `^(?:[A-Z][a-z]+(?:\s+[A-Z][a-z]+)*\s+)?[A-Z]{2,4}/\d{2}/\d{4}$`

Character classes are the ASCII ones written in the patterns (`\s` and `\d`
are modelled as ASCII whitespace / ASCII digits).  Because the three token
shapes appearing in the patterns — capitalized word `[A-Z][a-z]+`,
all-uppercase token `[A-Z]+` (resp. the matric token `[A-Z]{2,4}/\d{2}/\d{4}`),
and 12-digit token `\d{12}` — are pairwise disjoint and none may contain
whitespace, a string matches the whole anchored pattern exactly when it has no
leading or trailing whitespace and its maximal whitespace-separated tokens
have the required shapes in the required order.  The matcher below is written
in that tokenized form.
-/

/-- Class `[A-Z]`. -/
def isUpperAZ (c : Char) : Bool := 'A' ≤ c && c ≤ 'Z'

/-- Class `[a-z]`. -/
def isLowerAZ (c : Char) : Bool := 'a' ≤ c && c ≤ 'z'

/-- Class `\d` (ASCII). -/
def isDigit09 (c : Char) : Bool := '0' ≤ c && c ≤ '9'

/-- Class `\s` (ASCII): space, tab, newline, vertical tab, form feed, carriage return -/
def isSpaceChar (c : Char) : Bool :=
  c = ' ' || c = '\t' || c = '\n' || c = '\x0b' || c = '\x0c' || c = '\r'

/-- Split into maximal runs of non-whitespace characters (accumulator holds
the current token reversed). -/
def splitTokensAux : List Char → List Char → List (List Char)
  | [], acc => if acc.isEmpty then [] else [acc.reverse]
  | c :: rest, acc =>
    if isSpaceChar c then
      if acc.isEmpty then splitTokensAux rest []
      else acc.reverse :: splitTokensAux rest []
    else splitTokensAux rest (c :: acc)

def splitTokens (l : List Char) : List (List Char) := splitTokensAux l []

/-- Token of shape `[A-Z][a-z]+` (uppercase letter followed by one or more
lowercase letters). -/
def isCapWordTok : List Char → Bool
  | [] => false
  | c :: rest => isUpperAZ c && !rest.isEmpty && rest.all isLowerAZ

/-- Token of shape `[A-Z]+`. -/
def isUpperTok (t : List Char) : Bool := !t.isEmpty && t.all isUpperAZ

/-- Token of shape `\d{12}`. -/
def isDigits12Tok (t : List Char) : Bool := t.length == 12 && t.all isDigit09

/-- Token of shape `[A-Z]{2,4}/\d{2}/\d{4}`. -/
def isMatricTok (t : List Char) : Bool :=
  let up := t.takeWhile isUpperAZ
  decide (2 ≤ up.length) && decide (up.length ≤ 4) &&
    (match t.drop up.length with
     | '/' :: d1 :: d2 :: '/' :: rest =>
       isDigit09 d1 && isDigit09 d2 && rest.length == 4 && rest.all isDigit09
     | _ => false)

/-- Pattern `^[A-Z][a-z]+(?:\s+[A-Z][a-z]+)*\s+[A-Z]+\s+\d{12}$` in tokenized form:
no leading/trailing whitespace, and the tokens are one or more capitalized
words, then an all-uppercase token, then a 12-digit token. -/
def matchPre (l : List Char) : Bool :=
  match l, l.reverse with
  | c :: _, lastc :: _ =>
    !isSpaceChar c && !isSpaceChar lastc &&
    (match (splitTokens l).reverse with
     | d :: u :: ws => isDigits12Tok d && isUpperTok u && !ws.isEmpty && ws.all isCapWordTok
     | _ => false)
  | _, _ => false

/-- Pattern `^(?:[A-Z][a-z]+(?:\s+[A-Z][a-z]+)*\s+)?[A-Z]{2,4}/\d{2}/\d{4}$` in
tokenized form: no leading/trailing whitespace, and the tokens are zero or
more capitalized words followed by a matric token. -/
def matchPost (l : List Char) : Bool :=
  match l, l.reverse with
  | c :: _, lastc :: _ =>
    !isSpaceChar c && !isSpaceChar lastc &&
    (match (splitTokens l).reverse with
     | m :: ws => isMatricTok m && ws.all isCapWordTok
     | [] => false)
  | _, _ => false

/-- Embeds `validate_name` (bot.py lines 34-47); the process-wide `MODE` global is
passed explicitly. -/
def validate_name (mode : Mode) (name : String) : Bool :=
  match mode with
  | .pre_matric => matchPre name.data
  | .post_matric => matchPost name.data

/-! ## Association-list dictionaries -/

/-- Python `d[k]` / `k in d` (first binding wins; `dinsert`/`derase` keep keys
unique anyway). -/
def dlookup {α : Type} (m : List (UserId × α)) (k : UserId) : Option α :=
  match m with
  | [] => none
  | (k', v) :: rest => if k' = k then some v else dlookup rest k

/-- Python `del d[k]` (no-op when absent, as in the guarded deletes of the
source). -/
def derase {α : Type} (m : List (UserId × α)) (k : UserId) : List (UserId × α) :=
  match m with
  | [] => []
  | (k', v) :: rest => if k' = k then derase rest k else (k', v) :: derase rest k

/-- Python `d[k] = v`. -/
def dinsert {α : Type} (m : List (UserId × α)) (k : UserId) (v : α) : List (UserId × α) :=
  (k, v) :: derase m k

@[simp]
theorem dlookup_dinsert_self {α : Type} (m : List (UserId × α)) (k : UserId) (v : α) :
    dlookup (dinsert m k v) k = some v := by
  simp [dinsert, dlookup]

@[simp]
theorem dlookup_derase_self {α : Type} (m : List (UserId × α)) (k : UserId) :
    dlookup (derase m k) k = none := by
  induction m with
  | nil => simp [derase, dlookup]
  | cons p rest ih =>
    obtain ⟨k', v⟩ := p
    by_cases h : k' = k <;> simp [derase, dlookup, h, ih]

theorem dlookup_derase_ne {α : Type} (m : List (UserId × α)) (k k' : UserId)
    (h : k' ≠ k) : dlookup (derase m k) k' = dlookup m k' := by
  induction m with
  | nil => rfl
  | cons p rest ih =>
    obtain ⟨k₀, v₀⟩ := p
    by_cases h0 : k₀ = k
    · subst h0
      rw [show derase ((k₀, v₀) :: rest) k₀ = derase rest k₀ from by simp [derase]]
      rw [ih]
      simp only [dlookup]
      rw [if_neg (fun hk => h hk.symm)]
    · simp only [derase, if_neg h0, dlookup]
      by_cases h1 : k₀ = k'
      · rw [if_pos h1, if_pos h1]
      · rw [if_neg h1, if_neg h1, ih]

theorem dlookup_dinsert_ne {α : Type} (m : List (UserId × α)) (k k' : UserId) (v : α)
    (h : k' ≠ k) : dlookup (dinsert m k v) k' = dlookup m k' := by
  simp only [dinsert, dlookup]
  rw [if_neg (fun hk => h hk.symm), dlookup_derase_ne m k k' h]

/-! ## Data model (bot.py lines 8-16) -/

/-- Entry of `pending_corrections` (the `username` field of the source, used
only inside message text, is omitted). -/
structure PendingCorrection where
  warning_msg_id : MsgId
  display_name : String
  warning_time : Time
  timer_end : Time
deriving DecidableEq, Repr

/-- Entry of `rejoin_attempts`. -/
structure RejoinData where
  attempts : Nat
  last_attempt : Option Time
deriving DecidableEq, Repr

/-- Entry of `approved_rejoins`. -/
structure ApprovedRejoin where
  display_name : String
  approval_time : Time
deriving DecidableEq, Repr

/-- Entry of `active_invite_links`. -/
structure LinkData where
  link : String
  created_at : Time
  used : Bool
  expires_at : Time
deriving DecidableEq, Repr

/-- The in-memory stores of bot.py (lines 8-16) together with the scheduled
one-shot removal jobs.  `warning_messages` is the list of warning message
ids kept for cleanup; `bot_messages_to_cleanup` and `group_admins` (folded
into `Env.exempt`) are not modelled. -/
structure BotState where
  pending_corrections : List (UserId × PendingCorrection)
  warning_messages : List MsgId
  rejoin_attempts : List (UserId × RejoinData)
  approved_rejoins : List (UserId × ApprovedRejoin)
  member_name_tracker : List (UserId × String)
  active_invite_links : List (UserId × LinkData)
  removal_jobs : List UserId
deriving DecidableEq, Repr

/-- Environment: `is_lecturer_or_admin` outcome, global `MODE`, bot's own id. -/
structure Env where
  exempt : UserId → Bool
  mode : Mode
  botId : UserId

/-- Side effects enacted through the chat platform / scheduler. -/
inductive Effect where
  | warningNotice (uid : UserId) (dname : String)
  | removalNotice (uid : UserId) (lastName : String)
  | correctionAck (dname : String)
  | welcomeBack (dname : String)
  | welcomeNew (dname : String)
  | securityNotice (approvedName joinedName : String)
  | banUser (uid : UserId)
  | deleteMessage (msgId : MsgId)
  | cancelRemovalJob (uid : UserId)
  | scheduleRemovalJob (uid : UserId)
  | adminHelp
  | cooldownNotice
  | limitNotice
  | approvedNotice (dname : String) (link : String)
  | linkErrorNotice
  | invalidNameNotice (dname : String)
  | notifyLecturers
deriving DecidableEq, Repr

/-- The empty initial state (all stores empty, as at process start). -/
def emptyState : BotState :=
  { pending_corrections := [], warning_messages := [], rejoin_attempts := [],
    approved_rejoins := [], member_name_tracker := [], active_invite_links := [],
    removal_jobs := [] }

/-! ## Admission link manager (bot.py lines 117-194) -/

/-- Embeds `create_invite_link` (lines 118-152).  The platform call
`context.bot.create_chat_invite_link` is passed in as `platformLink`:
`some l` when it returns a link, `none` when it raises — the source catches
every exception itself and returns `None` in that case, so no exception ever
escapes this function.  Returns the updated `active_invite_links` store and
the function's return value. -/
def create_invite_link (now : Time) (platformLink : Option String) (uid : UserId)
    (links : List (UserId × LinkData)) : List (UserId × LinkData) × Option String :=
  -- lines 122-127: drop the caller's old link if it is older than 2 hours
  let links1 :=
    match dlookup links uid with
    | some old => if old.created_at + 2 * 60 * 60 < now then derase links uid else links
    | none => links
  match platformLink with
  | none => (links1, none)
  | some l =>
      (dinsert links1 uid
        { link := l, created_at := now, used := false,
          expires_at := now + INVITE_LINK_DURATION }, some l)

/-- Embeds `mark_invite_link_used` (lines 173-177). -/
def mark_invite_link_used (links : List (UserId × LinkData)) (uid : UserId) :
    List (UserId × LinkData) :=
  match dlookup links uid with
  | some ld => dinsert links uid { ld with used := true }
  | none => links

/-- Embeds `cleanup_expired_links` (lines 179-194): collects every `user_id` with
`current_time > expires_at` and deletes each collected entry — on an
association list with unique keys this is exactly the filter keeping the
entries with `¬ expires_at < now`. -/
def cleanup_expired_links (now : Time) (s : BotState) : BotState :=
  { s with active_invite_links :=
      s.active_invite_links.filter (fun p => !decide (p.2.expires_at < now)) }

/-! ## Name-change detection (bot.py lines 197-257) -/

/-- Python runtime errors relevant to the modelled paths. -/
inductive PyError where
  | attrError
deriving DecidableEq, Repr

/-- Embeds `detect_name_change` (lines 197-257).  Returns the function's boolean
result together with the updated state and emitted effects.

The branch at lines 212-214 (name unchanged, invalid, not yet warned) calls
`warn_and_schedule_removal(context, GROUP_ID, context._bot.get_chat(GROUP_ID))`.
`get_chat` is an async method that is not awaited there, so the third
argument is a coroutine object, and `warn_and_schedule_removal` immediately
evaluates `user.id` on it — which raises `AttributeError` before any message
is sent or any store is written.  That branch is therefore modelled as
`.error .attrError`. -/
def detect_name_change (env : Env) (uid : UserId) (current_name : String)
    (s : BotState) : Except PyError (Bool × BotState × List Effect) :=
  if env.exempt uid then .ok (false, s, [])
  else
    match dlookup s.member_name_tracker uid with
    | some previous_name =>
      if previous_name = current_name then
        if !validate_name env.mode current_name
            && (dlookup s.pending_corrections uid).isNone then
          .error .attrError
        else .ok (false, s, [])
      else
        -- line 221: update tracker with the new name
        let s1 := { s with
          member_name_tracker := dinsert s.member_name_tracker uid current_name }
        if validate_name env.mode current_name then
          match dlookup s1.pending_corrections uid with
          | some pc =>
            -- lines 226-248: delete warning message, drop the pending
            -- correction, cancel the removal job, send the corrected notice
            let s2 := { s1 with
              pending_corrections := derase s1.pending_corrections uid,
              warning_messages := s1.warning_messages.erase pc.warning_msg_id,
              removal_jobs := s1.removal_jobs.filter (fun j => j != uid) }
            .ok (false, s2,
              [.deleteMessage pc.warning_msg_id, .cancelRemovalJob uid,
               .correctionAck current_name])
          | none => .ok (false, s1, [])
        else .ok (true, s1, [])
    | none =>
      -- lines 254-257: first observation of this user
      let s1 := { s with
        member_name_tracker := dinsert s.member_name_tracker uid current_name }
      .ok (!validate_name env.mode current_name, s1, [])

/-! ## Compliance tracker (bot.py lines 378-492) -/

/-- Embeds `warn_and_schedule_removal` (lines 378-426).  `warnMsgId` is the message
id the platform assigns to the sent warning. -/
def warn_and_schedule_removal (env : Env) (now : Time) (warnMsgId : MsgId)
    (uid : UserId) (dname : String) (s : BotState) : BotState × List Effect :=
  if env.exempt uid then (s, [])
  else
    ({ s with
        pending_corrections := dinsert s.pending_corrections uid
          { warning_msg_id := warnMsgId, display_name := dname,
            warning_time := now, timer_end := now + NAME_CORRECTION_TIME },
        warning_messages := s.warning_messages ++ [warnMsgId],
        removal_jobs := s.removal_jobs ++ [uid] },
     [.warningNotice uid dname, .scheduleRemovalJob uid])

/-- Embeds `remove_user_if_not_corrected` (lines 428-492), the deadline resolver
fired by the one-shot removal job.  `fetched` is the result of
`get_chat_member`: `some name` gives the member's current full name, `none`
models the call raising (member unreachable), which lands in the `except`
branch at lines 488-492. -/
def remove_user_if_not_corrected (env : Env) (fetched : Option String)
    (uid : UserId) (s : BotState) : BotState × List Effect :=
  if env.exempt uid then
    ({ s with pending_corrections := derase s.pending_corrections uid }, [])
  else
    match fetched with
    | none =>
        ({ s with pending_corrections := derase s.pending_corrections uid }, [])
    | some current_name =>
      if !validate_name env.mode current_name then
        -- lines 447-473: still invalid — ban, send removal notice, drop
        -- tracker entry and pending correction (deleting its warning message)
        let base := { s with
          member_name_tracker := derase s.member_name_tracker uid }
        match dlookup s.pending_corrections uid with
        | some pc =>
            ({ base with
                pending_corrections := derase base.pending_corrections uid,
                warning_messages := base.warning_messages.erase pc.warning_msg_id },
             [.banUser uid, .removalNotice uid current_name,
              .deleteMessage pc.warning_msg_id])
        | none => (base, [.banUser uid, .removalNotice uid current_name])
      else
        -- lines 474-486: name was corrected
        match dlookup s.pending_corrections uid with
        | some _ =>
            ({ s with pending_corrections := derase s.pending_corrections uid },
             [.correctionAck current_name])
        | none => (s, [])

/-! ## Join gate (bot.py lines 511-629), one joining member -/

/-- Lines 586-629: normal validation for a new member (the member is already
in the tracker).  Note: unlike `warn_and_schedule_removal`, this path records
the pending correction but schedules no removal job — the periodic
`check_pending_removals` sweep enforces the deadline instead. -/
def newMemberValidation (env : Env) (now : Time) (warnMsgId : MsgId)
    (uid : UserId) (display_name : String) (s : BotState) : BotState × List Effect :=
  if validate_name env.mode display_name then
    (s, [.welcomeNew display_name])
  else
    ({ s with
        pending_corrections := dinsert s.pending_corrections uid
          { warning_msg_id := warnMsgId, display_name := display_name,
            warning_time := now, timer_end := now + NAME_CORRECTION_TIME },
        warning_messages := s.warning_messages ++ [warnMsgId] },
     [.warningNotice uid display_name])

/-- Embeds `handle_new_member` (lines 511-629) for a single member of
`new_chat_members`.  `banOk` tells whether `ban_chat_member` succeeds on the
security-violation path; when it raises, the `except` branch only logs and
control falls through to the normal validation (there is no `continue` on
that path). -/
def handle_new_member (env : Env) (now : Time) (warnMsgId : MsgId) (banOk : Bool)
    (uid : UserId) (display_name : String) (s : BotState) : BotState × List Effect :=
  if env.exempt uid then
    -- lines 529-533: lecturer/admin — still added to the tracker
    ({ s with member_name_tracker := dinsert s.member_name_tracker uid display_name }, [])
  else if uid = env.botId then (s, [])
  else
    -- line 540: all new members enter the tracker immediately
    let s0 := { s with
      member_name_tracker := dinsert s.member_name_tracker uid display_name }
    match dlookup s0.approved_rejoins uid with
    | some approved_info =>
      if display_name = approved_info.display_name then
        -- lines 549-565: name still matches — consume the record, mark link used
        let s1 := { s0 with
          member_name_tracker := dinsert s0.member_name_tracker uid display_name,
          approved_rejoins := derase s0.approved_rejoins uid }
        let s2 := { s1 with
          active_invite_links := mark_invite_link_used s1.active_invite_links uid }
        (s2, [.welcomeBack display_name])
      else
        -- lines 566-584: security breach — delete record, ban immediately
        let s1 := { s0 with approved_rejoins := derase s0.approved_rejoins uid }
        if banOk then
          (s1, [.banUser uid, .securityNotice approved_info.display_name display_name])
        else
          newMemberValidation env now warnMsgId uid display_name s1
    | none => newMemberValidation env now warnMsgId uid display_name s0

/-! ## Rejoin negotiator (bot.py lines 632-785) -/

/-- Lines 662-666: the attempt record, defaulting to zero attempts. -/
def raOf (s : BotState) (uid : UserId) : RejoinData :=
  (dlookup s.rejoin_attempts uid).getD { attempts := 0, last_attempt := none }

/-- Lines 669-671: `last_attempt` set and less than `REJOIN_COOLDOWN` seconds
ago. -/
def cooldown_active (ra : RejoinData) (now : Time) : Bool :=
  match ra.last_attempt with
  | some t => decide (now - t < REJOIN_COOLDOWN)
  | none => false

/-- Embeds `handle_private_message` (lines 632-785), registered for private
non-command messages only (`filters.ChatType.PRIVATE & ~filters.COMMAND`,
line 1095).  `platformLink` is the platform's invite-link creation result as
in `create_invite_link`.  Replies to the user are modelled as always
succeeding; the `except` branch at lines 754-763 (which is the only place
the Approved Rejoin record is rolled back) can therefore only be reached by
an exception escaping the `try` block, and `create_invite_link` returning
`None` does not raise. -/
def handle_private_message (env : Env) (uid : UserId) (dname : String)
    (now : Time) (platformLink : Option String) (s : BotState) :
    BotState × List Effect :=
  if env.exempt uid then (s, [.adminHelp])
  else
    let ra := raOf s uid
    let s0 := { s with rejoin_attempts := dinsert s.rejoin_attempts uid ra }
    if cooldown_active ra now then (s0, [.cooldownNotice])
    else if REJOIN_ATTEMPTS_LIMIT ≤ ra.attempts then (s0, [.limitNotice])
    else if validate_name env.mode dname then
      -- lines 694-703: increment the counter, record the approval
      let ra2 : RejoinData := { attempts := ra.attempts + 1, last_attempt := some now }
      let s1 := { s0 with
        rejoin_attempts := dinsert s0.rejoin_attempts uid ra2,
        approved_rejoins := dinsert s0.approved_rejoins uid
          { display_name := dname, approval_time := now } }
      let res := create_invite_link now platformLink uid s1.active_invite_links
      let s2 := { s1 with active_invite_links := res.1 }
      match res.2 with
      | none =>
          -- lines 709-715: report the error and return; the approval record
          -- is NOT removed on this path
          (s2, [.linkErrorNotice])
      | some l => (s2, [.approvedNotice dname l, .notifyLecturers])
    else
      -- lines 764-785: invalid name — still increments the counter
      let ra2 : RejoinData := { attempts := ra.attempts + 1, last_attempt := some now }
      ({ s0 with rejoin_attempts := dinsert s0.rejoin_attempts uid ra2 },
       [.invalidNameNotice dname])

/-! ## Claim theorems -/

/-- A concrete environment: nobody exempt, `pre_matric` mode, bot id 0. -/
def env0 : Env := { exempt := fun _ => false, mode := .pre_matric, botId := 0 }

/-- C5: the name validator accepts exactly the active mode's pattern:
in `pre_matric` mode one or more capitalized words, an all-uppercase token
and an exactly-12-digit token; in `post_matric` mode optional capitalized
words then 2-4 uppercase letters, "/", 2 digits, "/", 4 digits; names
deviating in case, spacing, or digit count are rejected. -/
theorem validate_name_matches_mode_pattern :
    -- the spec's positive and negative examples
    validate_name .pre_matric "Tope Chinedu Garba IFT 202311038308" = true ∧
    validate_name .pre_matric "Tope IFT 202311038308" = true ∧
    validate_name .pre_matric "Tope Chinedu" = false ∧
    validate_name .post_matric "ABC/23/4567" = true ∧
    validate_name .post_matric "Abdul ABC/23/4567" = true ∧
    validate_name .post_matric "APC/23/21457" = false ∧
    -- case deviations
    validate_name .pre_matric "tope Chinedu Garba IFT 202311038308" = false ∧
    validate_name .pre_matric "Tope Chinedu Garba ift 202311038308" = false ∧
    validate_name .post_matric "abc/23/4567" = false ∧
    -- spacing deviations
    validate_name .pre_matric "TopeChinedu Garba IFT 202311038308" = false ∧
    validate_name .pre_matric "Tope Chinedu Garba IFT202311038308" = false ∧
    validate_name .post_matric "Abdul ABC /23/4567" = false ∧
    -- digit-count deviations
    validate_name .pre_matric "Tope Chinedu Garba IFT 20231103830" = false ∧
    validate_name .pre_matric "Tope Chinedu Garba IFT 2023110383081" = false ∧
    validate_name .post_matric "ABC/2/4567" = false := by
  decide

/-- C1 (failing input): a non-exempt user (id 42, valid `pre_matric` name,
fresh counters) sends a private rejoin request and the platform's invite-link
creation returns no link.  The handler replies with the link-error notice and
returns — but the Approved Rejoin record written before the link attempt is
still present afterwards: the `None`-return path of `create_invite_link`
skips the rollback, which lives only in the unreachable `except` branch. -/
theorem link_failure_leaves_approved_rejoin :
    (handle_private_message env0 42 "John IFT 202311038308" 1000 none emptyState).2
      = [.linkErrorNotice] ∧
    dlookup (handle_private_message env0 42 "John IFT 202311038308" 1000 none
        emptyState).1.approved_rejoins 42
      = some { display_name := "John IFT 202311038308", approval_time := 1000 } := by
  decide

/-- The state used for the C2 counterexample: user 7 is tracked with the
invalid name "Big Mac" and has a pending correction whose deadline passed. -/
def stateC2 : BotState :=
  { emptyState with
      pending_corrections :=
        [(7, { warning_msg_id := 100, display_name := "Big Mac",
               warning_time := 0, timer_end := NAME_CORRECTION_TIME })],
      warning_messages := [100],
      member_name_tracker := [(7, "Big Mac")],
      removal_jobs := [7] }

/-- C2 counterexample: the deadline resolver is NOT guarded by the Pending
Correction record.  After a first invocation has resolved the violation for
user 7 (ban and removal notice sent, pending correction deleted), a second
invocation — the platform still reporting the banned member with the same
invalid name — bans again and sends a second removal notice. -/
theorem second_deadline_resolution_bans_again :
    Effect.banUser 7 ∈ (remove_user_if_not_corrected env0 (some "Big Mac") 7 stateC2).2 ∧
    dlookup (remove_user_if_not_corrected env0 (some "Big Mac") 7 stateC2).1.pending_corrections 7
      = none ∧
    (remove_user_if_not_corrected env0 (some "Big Mac") 7
        (remove_user_if_not_corrected env0 (some "Big Mac") 7 stateC2).1).2
      = [Effect.banUser 7, Effect.removalNotice 7 "Big Mac"] := by
  decide

/-- The state used for the C6 failing input: user 5 is tracked with the
invalid name "Big Mac" and has no pending correction. -/
def stateC6 : BotState :=
  { emptyState with member_name_tracker := [(5, "Big Mac")] }

/-- C6 (failing input): observing a known, non-exempt member whose current
name equals the stored `last_known_name` is NOT the claimed side-effect-free
`Unchanged` outcome when that unchanged name is invalid and unwarned: the
code calls `warn_and_schedule_removal` with the un-awaited coroutine
`context._bot.get_chat(GROUP_ID)` as the user, which raises `AttributeError`
instead of returning. -/
theorem observe_unchanged_invalid_name_raises :
    detect_name_change env0 5 "Big Mac" stateC6 = .error .attrError := by
  rfl

/-! ### Characterizations of `handle_private_message`, one per branch -/

theorem hpm_cooldown_eq (env : Env) (uid : UserId) (dname : String) (now : Time)
    (plink : Option String) (s : BotState)
    (hex : env.exempt uid = false)
    (hcd : cooldown_active (raOf s uid) now = true) :
    handle_private_message env uid dname now plink s
      = ({ s with rejoin_attempts := dinsert s.rejoin_attempts uid (raOf s uid) },
         [.cooldownNotice]) := by
  unfold handle_private_message
  simp [hex, hcd]

theorem hpm_limit_eq (env : Env) (uid : UserId) (dname : String) (now : Time)
    (plink : Option String) (s : BotState)
    (hex : env.exempt uid = false)
    (hcd : cooldown_active (raOf s uid) now = false)
    (hlim : REJOIN_ATTEMPTS_LIMIT ≤ (raOf s uid).attempts) :
    handle_private_message env uid dname now plink s
      = ({ s with rejoin_attempts := dinsert s.rejoin_attempts uid (raOf s uid) },
         [.limitNotice]) := by
  unfold handle_private_message
  simp [hex, hcd, hlim]

theorem hpm_invalid_eq (env : Env) (uid : UserId) (dname : String) (now : Time)
    (plink : Option String) (s : BotState)
    (hex : env.exempt uid = false)
    (hcd : cooldown_active (raOf s uid) now = false)
    (hlim : (raOf s uid).attempts < REJOIN_ATTEMPTS_LIMIT)
    (hv : validate_name env.mode dname = false) :
    handle_private_message env uid dname now plink s
      = ({ s with
            rejoin_attempts := dinsert (dinsert s.rejoin_attempts uid (raOf s uid)) uid
              { attempts := (raOf s uid).attempts + 1, last_attempt := some now } },
         [.invalidNameNotice dname]) := by
  unfold handle_private_message
  simp [hex, hcd, hv, Nat.not_le.mpr hlim]

theorem hpm_valid_eq (env : Env) (uid : UserId) (dname : String) (now : Time)
    (plink : Option String) (s : BotState)
    (hex : env.exempt uid = false)
    (hcd : cooldown_active (raOf s uid) now = false)
    (hlim : (raOf s uid).attempts < REJOIN_ATTEMPTS_LIMIT)
    (hv : validate_name env.mode dname = true) :
    handle_private_message env uid dname now plink s
      = ({ s with
            rejoin_attempts := dinsert (dinsert s.rejoin_attempts uid (raOf s uid)) uid
              { attempts := (raOf s uid).attempts + 1, last_attempt := some now },
            approved_rejoins := dinsert s.approved_rejoins uid
              { display_name := dname, approval_time := now },
            active_invite_links := (create_invite_link now plink uid s.active_invite_links).1 },
         match plink with
         | none => [.linkErrorNotice]
         | some l => [.approvedNotice dname l, .notifyLecturers]) := by
  cases plink <;>
    · unfold handle_private_message create_invite_link
      simp [hex, hcd, hv, Nat.not_le.mpr hlim]

/-- C2 counterpart (amended): the deadline resolver's action is guarded by
exemption and current name validity, not by the Pending Correction record.
After a first resolution removed the record, a second invocation for which
the platform still reports an invalid name bans again and sends a second
removal notice; it is a no-op only when the reported name is valid or the
member lookup fails. -/
theorem deadline_resolver_guarded_by_name_validity (env : Env) (uid : UserId)
    (nm : String) (s : BotState)
    (hex : env.exempt uid = false)
    (hpend : dlookup s.pending_corrections uid = none) :
    (validate_name env.mode nm = false →
      (remove_user_if_not_corrected env (some nm) uid s).2
        = [.banUser uid, .removalNotice uid nm]) ∧
    (validate_name env.mode nm = true →
      remove_user_if_not_corrected env (some nm) uid s = (s, [])) ∧
    (remove_user_if_not_corrected env none uid s).2 = [] := by
  refine ⟨fun hv => ?_, fun hv => ?_, ?_⟩
  · unfold remove_user_if_not_corrected
    simp [hex, hpend, hv]
  · unfold remove_user_if_not_corrected
    simp [hex, hpend, hv]
  · unfold remove_user_if_not_corrected
    simp [hex]

/-- C2 witness for `deadline_resolver_guarded_by_name_validity`. -/
theorem deadline_resolver_witness :
    (remove_user_if_not_corrected env0 (some "Big Mac") 7 emptyState).2
      = [.banUser 7, .removalNotice 7 "Big Mac"] :=
  (deadline_resolver_guarded_by_name_validity env0 7 "Big Mac" emptyState rfl rfl).1
    (by decide)

/-- C4: every private rejoin request preserves `attempts ≤ ATTEMPT_LIMIT`:
a request under cooldown is rejected without increment, a request at the
attempt limit is rejected without increment, and a request passing both
checks increments the counter by exactly one. -/
theorem rejoin_counter_invariant (env : Env) (uid : UserId) (dname : String)
    (now : Time) (plink : Option String) (s : BotState)
    (hex : env.exempt uid = false) :
    (cooldown_active (raOf s uid) now = true →
      (handle_private_message env uid dname now plink s).2 = [.cooldownNotice] ∧
      raOf (handle_private_message env uid dname now plink s).1 uid = raOf s uid) ∧
    (cooldown_active (raOf s uid) now = false →
      REJOIN_ATTEMPTS_LIMIT ≤ (raOf s uid).attempts →
      (handle_private_message env uid dname now plink s).2 = [.limitNotice] ∧
      raOf (handle_private_message env uid dname now plink s).1 uid = raOf s uid) ∧
    (cooldown_active (raOf s uid) now = false →
      (raOf s uid).attempts < REJOIN_ATTEMPTS_LIMIT →
      (raOf (handle_private_message env uid dname now plink s).1 uid).attempts
        = (raOf s uid).attempts + 1) ∧
    ((raOf s uid).attempts ≤ REJOIN_ATTEMPTS_LIMIT →
      (raOf (handle_private_message env uid dname now plink s).1 uid).attempts
        ≤ REJOIN_ATTEMPTS_LIMIT) := by
  refine ⟨fun hcd => ?_, fun hcd hlim => ?_, fun hcd hlim => ?_, fun hle => ?_⟩
  · rw [hpm_cooldown_eq env uid dname now plink s hex hcd]
    simp [raOf]
  · rw [hpm_limit_eq env uid dname now plink s hex hcd hlim]
    simp [raOf]
  · by_cases hv : validate_name env.mode dname
    · rw [hpm_valid_eq env uid dname now plink s hex hcd hlim hv]
      simp [raOf]
    · rw [hpm_invalid_eq env uid dname now plink s hex hcd hlim
        (Bool.eq_false_iff.mpr hv)]
      simp [raOf]
  · by_cases hcd : cooldown_active (raOf s uid) now
    · rw [hpm_cooldown_eq env uid dname now plink s hex hcd]
      simpa [raOf] using hle
    · rcases Nat.lt_or_ge (raOf s uid).attempts REJOIN_ATTEMPTS_LIMIT with hlim | hlim
      · by_cases hv : validate_name env.mode dname
        · rw [hpm_valid_eq env uid dname now plink s hex (Bool.eq_false_iff.mpr hcd) hlim hv]
          simp only [raOf] at hlim ⊢
          simp
          omega
        · rw [hpm_invalid_eq env uid dname now plink s hex (Bool.eq_false_iff.mpr hcd) hlim
            (Bool.eq_false_iff.mpr hv)]
          simp only [raOf] at hlim ⊢
          simp
          omega
      · rw [hpm_limit_eq env uid dname now plink s hex (Bool.eq_false_iff.mpr hcd) hlim]
        simpa [raOf] using hle

/-- C4 witness for `rejoin_counter_invariant`. -/
theorem rejoin_counter_witness :
    (raOf (handle_private_message env0 3 "Big Mac" 0 none emptyState).1 3).attempts
      = (raOf emptyState 3).attempts + 1 :=
  (rejoin_counter_invariant env0 3 "Big Mac" 0 none emptyState rfl).2.2.1
    (by decide) (by decide)

/-- C9: when a valid-name rejoin request fails at invite-link creation, the
counter increment is not undone — `attempts` stays incremented and
`last_attempt` stays set to the request time. -/
theorem link_failure_keeps_attempt_counter (env : Env) (uid : UserId)
    (dname : String) (now : Time) (s : BotState)
    (hex : env.exempt uid = false)
    (hcd : cooldown_active (raOf s uid) now = false)
    (hlim : (raOf s uid).attempts < REJOIN_ATTEMPTS_LIMIT)
    (hv : validate_name env.mode dname = true) :
    dlookup (handle_private_message env uid dname now none s).1.rejoin_attempts uid
      = some { attempts := (raOf s uid).attempts + 1, last_attempt := some now } ∧
    (handle_private_message env uid dname now none s).2 = [.linkErrorNotice] := by
  rw [hpm_valid_eq env uid dname now none s hex hcd hlim hv]
  simp

/-- C9 witness for `link_failure_keeps_attempt_counter`. -/
theorem link_failure_counter_witness :
    dlookup (handle_private_message env0 42 "John IFT 202311038308" 1000 none
        emptyState).1.rejoin_attempts 42
      = some { attempts := (raOf emptyState 42).attempts + 1, last_attempt := some 1000 } :=
  (link_failure_keeps_attempt_counter env0 42 "John IFT 202311038308" 1000 emptyState
    rfl rfl (by decide) (by decide)).1

/-- C10: a non-command private message from a non-exempt user is always
processed as a rejoin request — its reply and its effect on the attempt
counter depend only on the Rejoin Attempt Counter store (and the request
itself), not on the member tracker, pending corrections, approvals or links,
so a user's membership or removal history is irrelevant; the reply is always
one of the rejoin-pipeline outcomes. -/
theorem private_rejoin_ignores_membership (env : Env) (uid : UserId)
    (dname : String) (now : Time) (plink : Option String) (s s' : BotState)
    (hex : env.exempt uid = false)
    (hra : s.rejoin_attempts = s'.rejoin_attempts) :
    (handle_private_message env uid dname now plink s).2
      = (handle_private_message env uid dname now plink s').2 ∧
    (handle_private_message env uid dname now plink s).1.rejoin_attempts
      = (handle_private_message env uid dname now plink s').1.rejoin_attempts ∧
    ((handle_private_message env uid dname now plink s).2 = [.cooldownNotice] ∨
     (handle_private_message env uid dname now plink s).2 = [.limitNotice] ∨
     (handle_private_message env uid dname now plink s).2 = [.invalidNameNotice dname] ∨
     (handle_private_message env uid dname now plink s).2 = [.linkErrorNotice] ∨
     ∃ l, plink = some l ∧
       (handle_private_message env uid dname now plink s).2
         = [.approvedNotice dname l, .notifyLecturers]) := by
  have hraOf : raOf s uid = raOf s' uid := by
    unfold raOf
    rw [hra]
  by_cases hcd : cooldown_active (raOf s uid) now
  · rw [hpm_cooldown_eq env uid dname now plink s hex hcd,
      hpm_cooldown_eq env uid dname now plink s' hex (hraOf ▸ hcd)]
    simp [hra, hraOf]
  · replace hcd := Bool.eq_false_iff.mpr hcd
    rcases Nat.lt_or_ge (raOf s uid).attempts REJOIN_ATTEMPTS_LIMIT with hlim | hlim
    · by_cases hv : validate_name env.mode dname
      · rw [hpm_valid_eq env uid dname now plink s hex hcd hlim hv,
          hpm_valid_eq env uid dname now plink s' hex (hraOf ▸ hcd) (hraOf ▸ hlim) hv]
        cases plink with
        | none => simp [hra, hraOf]
        | some l => simp [hra, hraOf]
      · rw [hpm_invalid_eq env uid dname now plink s hex hcd hlim (Bool.eq_false_iff.mpr hv),
          hpm_invalid_eq env uid dname now plink s' hex (hraOf ▸ hcd) (hraOf ▸ hlim)
            (Bool.eq_false_iff.mpr hv)]
        simp [hra, hraOf]
    · rw [hpm_limit_eq env uid dname now plink s hex hcd hlim,
        hpm_limit_eq env uid dname now plink s' hex (hraOf ▸ hcd) (hraOf ▸ hlim)]
      simp [hra, hraOf]

/-- The state used for the C10 witness: user 3 is tracked and warned, unlike
in `emptyState`. -/
def stateC10 : BotState :=
  { emptyState with
      member_name_tracker := [(3, "Someone")],
      pending_corrections :=
        [(3, { warning_msg_id := 1, display_name := "Someone",
               warning_time := 0, timer_end := NAME_CORRECTION_TIME })] }

/-- C10 witness for `private_rejoin_ignores_membership`. -/
theorem private_rejoin_witness :
    (handle_private_message env0 3 "Big Mac" 0 none emptyState).2
      = (handle_private_message env0 3 "Big Mac" 0 none stateC10).2 :=
  (private_rejoin_ignores_membership env0 3 "Big Mac" 0 none emptyState stateC10
    rfl rfl).1

/-- C3: a join event by a non-exempt identity holding an Approved Rejoin
record always consumes (deletes) the record — the join gate consults no
timestamps on this path, so elapsed time is irrelevant.  If the joining
display name equals the recorded `approved_name`, the admission link is
marked used and a welcome-back notice is the only effect; if it differs, the
identity is banned immediately with a security-violation notice, and no
warning is issued and no pending correction created (no grace period). -/
theorem join_consumes_approved_rejoin (env : Env) (now : Time) (mid : MsgId)
    (uid : UserId) (dname : String) (info : ApprovedRejoin) (s : BotState)
    (hex : env.exempt uid = false) (hbot : uid ≠ env.botId)
    (happ : dlookup s.approved_rejoins uid = some info) :
    dlookup (handle_new_member env now mid true uid dname s).1.approved_rejoins uid
      = none ∧
    (dname = info.display_name →
      (handle_new_member env now mid true uid dname s).2 = [.welcomeBack dname] ∧
      ∀ ld, dlookup s.active_invite_links uid = some ld →
        dlookup (handle_new_member env now mid true uid dname s).1.active_invite_links uid
          = some { ld with used := true }) ∧
    (dname ≠ info.display_name →
      (handle_new_member env now mid true uid dname s).2
        = [.banUser uid, .securityNotice info.display_name dname] ∧
      (handle_new_member env now mid true uid dname s).1.pending_corrections
        = s.pending_corrections ∧
      (handle_new_member env now mid true uid dname s).1.removal_jobs
        = s.removal_jobs) := by
  unfold handle_new_member
  by_cases hn : dname = info.display_name
  · simp [hex, if_neg hbot, happ, hn, mark_invite_link_used]
    intro ld hld
    simp [hld]
  · simp [hex, if_neg hbot, happ, hn]

/-- The state used for the C3 witness: user 5 holds an Approved Rejoin record
and an active admission link. -/
def stateC3 : BotState :=
  { emptyState with
      approved_rejoins := [(5, { display_name := "John IFT 202311038308",
                                 approval_time := 0 })],
      active_invite_links :=
        [(5, { link := "L", created_at := 0, used := false,
               expires_at := INVITE_LINK_DURATION })] }

/-- C3 witness for `join_consumes_approved_rejoin`. -/
theorem join_consumes_witness :
    dlookup (handle_new_member env0 999999 9 true 5 "John IFT 202311038308"
        stateC3).1.approved_rejoins 5 = none :=
  (join_consumes_approved_rejoin env0 999999 9 5 "John IFT 202311038308"
    { display_name := "John IFT 202311038308", approval_time := 0 } stateC3
    rfl (by decide) rfl).1

/-- C7: a non-exempt, tracked member with a Pending Correction who changes
their display name to a valid one is resolved by the observation itself: the
pending correction is deleted, its warning message deleted, the scheduled
removal job cancelled, exactly one correction-acknowledgement is sent and no
ban is issued — and even a deadline-resolver invocation on the resulting
state (the name still being the corrected one) produces no effect, so the
member is never banned for that violation. -/
theorem name_change_to_valid_resolves_pending (env : Env) (uid : UserId)
    (oldName newName : String) (pc : PendingCorrection) (s : BotState)
    (hex : env.exempt uid = false)
    (htr : dlookup s.member_name_tracker uid = some oldName)
    (hne : oldName ≠ newName)
    (hvalid : validate_name env.mode newName = true)
    (hpc : dlookup s.pending_corrections uid = some pc) :
    detect_name_change env uid newName s
      = .ok (false,
          { s with
              member_name_tracker := dinsert s.member_name_tracker uid newName,
              pending_corrections := derase s.pending_corrections uid,
              warning_messages := s.warning_messages.erase pc.warning_msg_id,
              removal_jobs := s.removal_jobs.filter (fun j => j != uid) },
          [.deleteMessage pc.warning_msg_id, .cancelRemovalJob uid,
           .correctionAck newName]) ∧
    dlookup (derase s.pending_corrections uid) uid = none ∧
    uid ∉ s.removal_jobs.filter (fun j => j != uid) ∧
    (remove_user_if_not_corrected env (some newName) uid
        ({ s with
            member_name_tracker := dinsert s.member_name_tracker uid newName,
            pending_corrections := derase s.pending_corrections uid,
            warning_messages := s.warning_messages.erase pc.warning_msg_id,
            removal_jobs := s.removal_jobs.filter (fun j => j != uid) })).2
      = [] := by
  refine ⟨?_, dlookup_derase_self _ _, ?_, ?_⟩
  · unfold detect_name_change
    simp [hex, htr, hne, hvalid, hpc]
  · simp [List.mem_filter]
  · unfold remove_user_if_not_corrected
    simp [hex, hvalid]

/-- The state used for the C7 witness: user 5 is tracked as "Big Mac" with a
pending correction and a scheduled removal job. -/
def stateC7 : BotState :=
  { emptyState with
      member_name_tracker := [(5, "Big Mac")],
      pending_corrections :=
        [(5, { warning_msg_id := 100, display_name := "Big Mac",
               warning_time := 0, timer_end := NAME_CORRECTION_TIME })],
      warning_messages := [100],
      removal_jobs := [5] }

/-- C7 witness for `name_change_to_valid_resolves_pending`. -/
theorem name_change_resolves_witness :
    detect_name_change env0 5 "John IFT 202311038308" stateC7
      = .ok (false,
          { stateC7 with
              member_name_tracker := dinsert stateC7.member_name_tracker 5
                "John IFT 202311038308",
              pending_corrections := derase stateC7.pending_corrections 5,
              warning_messages := stateC7.warning_messages.erase 100,
              removal_jobs := stateC7.removal_jobs.filter (fun j => j != 5) },
          [.deleteMessage 100, .cancelRemovalJob 5,
           .correctionAck "John IFT 202311038308"]) :=
  (name_change_to_valid_resolves_pending env0 5 "Big Mac" "John IFT 202311038308"
    { warning_msg_id := 100, display_name := "Big Mac", warning_time := 0,
      timer_end := NAME_CORRECTION_TIME } stateC7
    rfl rfl (by decide) (by decide) rfl).1

/-- C8: the link-expiry sweep at time `now` removes exactly the admission
links with `expires_at < now` and leaves every other store — in particular
every Approved Rejoin record — unchanged. -/
theorem sweep_deletes_exactly_expired (s : BotState) (now : Time) :
    (∀ e : UserId × LinkData,
        e ∈ (cleanup_expired_links now s).active_invite_links ↔
          e ∈ s.active_invite_links ∧ ¬ e.2.expires_at < now) ∧
    (cleanup_expired_links now s).approved_rejoins = s.approved_rejoins ∧
    (cleanup_expired_links now s).pending_corrections = s.pending_corrections ∧
    (cleanup_expired_links now s).rejoin_attempts = s.rejoin_attempts ∧
    (cleanup_expired_links now s).member_name_tracker = s.member_name_tracker ∧
    (cleanup_expired_links now s).warning_messages = s.warning_messages ∧
    (cleanup_expired_links now s).removal_jobs = s.removal_jobs := by
  refine ⟨fun e => ?_, rfl, rfl, rfl, rfl, rfl, rfl⟩
  simp [cleanup_expired_links, List.mem_filter]

/-- The state used for the C8 witness: one expired link (user 1), one live
link (user 2), and an Approved Rejoin record for the member whose link
expires. -/
def stateC8 : BotState :=
  { emptyState with
      active_invite_links :=
        [(1, { link := "A", created_at := 0, used := false, expires_at := 50 }),
         (2, { link := "B", created_at := 0, used := false, expires_at := 200 })],
      approved_rejoins := [(1, { display_name := "John IFT 202311038308",
                                 approval_time := 0 })] }

/-- C8 witness for `sweep_deletes_exactly_expired`. -/
theorem sweep_witness :
    (cleanup_expired_links 100 stateC8).approved_rejoins = stateC8.approved_rejoins :=
  (sweep_deletes_exactly_expired stateC8 100).2.1

end GnsBot
